import Mathlib

/-!
Verification of the label-printing client (`static/app.js`).

The file is a browser-side UI controller: a debounced typeahead product
search, a live label-preview image, and a print-request submission flow.
We give a shallow embedding of the controller: the mutable module-level
variables and the DOM elements the handlers touch become fields of a
state record `St`; each event handler becomes a function `St → St`;
network side effects (search fetches, preview image loads, print POSTs,
alert dialogs) are recorded in append-only logs inside the state.
Timers (`setTimeout` / `clearTimeout`) are modelled by an optional
pending `(fireTime, query)` pair together with an explicit clock: each
event carries its timestamp and any timer that is due fires first.
-/

namespace LabelPrinting

/-- A product as served by `/api/products` (see the data model: name,
quantity, measure, barcode, mrp, retail_price).  Quantities and prices
are integers here; no claim depends on fractional values. -/
structure Product where
  name : String
  quantity : Int
  measure : String
  barcode : String
  mrp : Int
  retail_price : Int
  deriving DecidableEq, Repr

/-- Parameters of a preview request `GET /preview?barcode=..&store=..&exp=..`
as built by `updatePreview` via `URLSearchParams`.  We record the three
parameter values structurally rather than as a percent-encoded URL. -/
structure PreviewParams where
  barcode : String
  store : String
  exp : String
  deriving DecidableEq, Repr

/-- Whitespace as far as JavaScript string trimming is concerned
(WhiteSpace and LineTerminator code points; the common ones). -/
def isJsWhitespace (c : Char) : Bool :=
  c = ' ' || c = '\t' || c = '\n' || c = '\r' ||
  c = (Char.ofNat 0x0b) || c = (Char.ofNat 0x0c) || c = (Char.ofNat 0xa0) ||
  c = (Char.ofNat 0x2028) || c = (Char.ofNat 0x2029) || c = (Char.ofNat 0xfeff)

/-- JavaScript `String.prototype.trim`: drop leading and trailing
whitespace. -/
def jsTrim (s : String) : String :=
  String.mk (((s.data.dropWhile isJsWhitespace).reverse.dropWhile isJsWhitespace).reverse)

/-- Longest digit prefix of a character list, as consumed by JavaScript
`parseInt` with radix 10; `none` when there is no leading digit. -/
def digitsPrefix (l : List Char) : Option Nat :=
  match l.takeWhile Char.isDigit with
  | [] => none
  | ds => some (ds.foldl (fun acc c => acc * 10 + (c.toNat - Char.toNat '0')) 0)

/-- JavaScript `parseInt(s, 10)`: strip whitespace, an optional sign,
then read the longest digit prefix; `none` models the result `NaN`. -/
def parseIntJS (s : String) : Option Int :=
  match (jsTrim s).toList with
  | '-' :: rest => (digitsPrefix rest).map (fun n => -(n : Int))
  | '+' :: rest => (digitsPrefix rest).map (fun n => (n : Int))
  | l => (digitsPrefix l).map (fun n => (n : Int))

/-- JavaScript `a || b` for strings: the empty string is the only falsy
string value. -/
def jsOr (v d : String) : String := if v = "" then d else v

/-- The count computed by the print click handler:
`Math.max(1, parseInt(countInput.value || "1", 10))`.
`Math.max` propagates `NaN`, so a `none` from `parseIntJS` stays `none`. -/
def computeCount (v : String) : Option Int :=
  (parseIntJS (jsOr v "1")).map (fun n => max 1 n)

/-- The JSON body POSTed to `/api/print`.  `count` is `Option Int`
because the handler can compute `NaN` (serialized as `null`). -/
structure PrintPayload where
  barcode : String
  count : Option Int
  store_name : String
  exp : String
  deriving DecidableEq, Repr

/-- The parsed JSON body of a `/api/print` response:
`{ok, printed, errors?}`; `errors` may be absent. -/
structure PrintResult where
  ok : Bool
  printed : Int
  errors : Option (List String)
  deriving DecidableEq, Repr

/-- Outcome of the `fetch` + `res.json()` pair inside the print handler:
a completed response with parsed body, a body that fails to parse as
JSON (`res.json()` throws), or a network-level failure (`fetch` throws). -/
inductive FetchOutcome where
  | response (resOk : Bool) (data : PrintResult)
  | parseErr (msg : String)
  | netErr (msg : String)
  deriving DecidableEq, Repr

/-- Controller state: the module-level variables (`selectedProduct`,
`searchTimer`), the DOM bits the handlers read or write, and append-only
logs of the network requests and alerts the handlers emit. -/
structure St where
  selectedProduct : Option Product
  searchTimer : Option (Nat × String)
  searchValue : String
  countValue : String
  storeValue : String
  expValue : String
  suggestionsVisible : Bool
  suggestionsItems : List Product
  metaText : String
  previewSrc : Option PreviewParams
  printDisabled : Bool
  printLabel : String
  searchRequests : List String
  previewRequests : List PreviewParams
  printRequests : List PrintPayload
  alerts : List String
  deriving DecidableEq, Repr

/-- Modelled from the spec: the initial page state (the HTML document is
not part of the repository).  No product is selected, no timer is
pending, all text fields are empty, the suggestion list is hidden and
the print control is disabled with label "Print". -/
def initSt : St where
  selectedProduct := none
  searchTimer := none
  searchValue := ""
  countValue := ""
  storeValue := ""
  expValue := ""
  suggestionsVisible := false
  suggestionsItems := []
  metaText := ""
  previewSrc := none
  printDisabled := true
  printLabel := "Print"
  searchRequests := []
  previewRequests := []
  printRequests := []
  alerts := []

/-- The pending search timer fires when due: at time `t`, a timer
scheduled for `ft ≤ t` runs its callback, which issues the
`GET /api/products?q=...` fetch for the query it captured. -/
def fireTimer (s : St) (t : Nat) : St :=
  match s.searchTimer with
  | some (ft, q) =>
      if ft ≤ t then
        { s with searchTimer := none, searchRequests := s.searchRequests ++ [q] }
      else s
  | none => s

/-- The `input` handler on `#productSearch`, entered at time `t` with
the new field value `v`: trims the query, clears the selection, disables
printing, clears the metadata region, removes the preview image source,
cancels any pending timer; then either hides the suggestions (empty
query) or schedules the debounced search 180 time units later. -/
def productSearchInput (s : St) (t : Nat) (v : String) : St :=
  let q := jsTrim v
  let s := { s with
    searchValue := v
    selectedProduct := none
    printDisabled := true
    metaText := ""
    previewSrc := none
    searchTimer := none }
  if q = "" then { s with suggestionsVisible := false }
  else { s with searchTimer := some (t + 180, q) }

/-- Continuation of the search fetch: the `/api/products` response
`items` arrives; an empty array hides the suggestion list, a non-empty
array renders one row per product and shows the list. -/
def searchResponse (s : St) (items : List Product) : St :=
  if items = [] then { s with suggestionsItems := [], suggestionsVisible := false }
  else { s with suggestionsItems := items, suggestionsVisible := true }

/-- The function `updatePreview`: a no-op without a selection; otherwise issues a
preview request with the selection's barcode and the trimmed store and
expiry fields, points the image at it, and rewrites the metadata line. -/
def updatePreview (s : St) : St :=
  match s.selectedProduct with
  | none => s
  | some p =>
      let req : PreviewParams :=
        { barcode := p.barcode, store := jsTrim s.storeValue, exp := jsTrim s.expValue }
      { s with
        previewSrc := some req
        previewRequests := s.previewRequests ++ [req]
        metaText :=
          "Barcode: " ++ p.barcode ++ " | " ++
          "QTY: " ++ toString p.quantity ++ " " ++ p.measure ++ " | " ++
          "MRP: ₹" ++ toString p.mrp ++ " | RP: ₹" ++ toString p.retail_price }

/-- The function `selectProduct(p)`: record the selection, copy the product name into
the search box, hide the suggestions, enable printing, refresh preview. -/
def selectProduct (s : St) (p : Product) : St :=
  updatePreview { s with
    selectedProduct := some p
    searchValue := p.name
    suggestionsVisible := false
    printDisabled := false }

/-- The `input` handler on `#storeName`: the field now holds `v`; the
handler itself is just `updatePreview`. -/
def storeNameInput (s : St) (v : String) : St :=
  updatePreview { s with storeValue := v }

/-- The `input` handler on `#exp`: the field now holds `v`; the handler
itself is just `updatePreview`. -/
def expInput (s : St) (v : String) : St :=
  updatePreview { s with expValue := v }

/-- The user edits `#count` (the source attaches no handler; the field
is only read when printing). -/
def countInput (s : St) (v : String) : St :=
  { s with countValue := v }

/-- The joined error text in the failure alert:
`data.errors?.join("; ")` renders as `undefined` when `errors` is
absent and as the semicolon-joined list otherwise. -/
def joinedErrors : Option (List String) → String
  | some es => String.intercalate "; " es
  | none => "undefined"

/-- The alert shown for a completed, JSON-parsed print response:
success when the HTTP status is 2xx (`res.ok`) and the body has
`ok: true`; the partial/failure message otherwise. -/
def printAlert (resOk : Bool) (data : PrintResult) : String :=
  if resOk && data.ok then
    "Printed " ++ toString data.printed ++ " label(s)."
  else
    "Partial/failed print. Printed: " ++ toString data.printed ++
    ". Errors: " ++ joinedErrors data.errors

/-- The `click` handler on `#printBtn`, with the server's behaviour for
this request supplied as `o`.  A no-op without a selection; otherwise it
builds the payload, disables the button and shows the busy label, issues
the POST, alerts on the outcome (the `catch` arm turns both thrown cases
into "Print failed: " plus the message), and the `finally` arm restores
the label and re-enables the button. -/
def printClick (s : St) (o : FetchOutcome) : St :=
  match s.selectedProduct with
  | none => s
  | some p =>
      let payload : PrintPayload :=
        { barcode := p.barcode
          count := computeCount s.countValue
          store_name := jsTrim s.storeValue
          exp := jsTrim s.expValue }
      let s := { s with
        printDisabled := true
        printLabel := "Printing…"
        printRequests := s.printRequests ++ [payload] }
      let s :=
        match o with
        | .response resOk data => { s with alerts := s.alerts ++ [printAlert resOk data] }
        | .parseErr msg => { s with alerts := s.alerts ++ ["Print failed: " ++ msg] }
        | .netErr msg => { s with alerts := s.alerts ++ ["Print failed: " ++ msg] }
      { s with printLabel := "Print", printDisabled := false }

/-- Events the controller reacts to, each tagged with its clock time
when run: user edits, the asynchronous search response, a suggestion
click, and a print click carrying the fetch outcome. -/
inductive Ev where
  | search (v : String)
  | searchResp (items : List Product)
  | select (p : Product)
  | store (v : String)
  | exp (v : String)
  | count (v : String)
  | print (o : FetchOutcome)
  deriving DecidableEq, Repr

/-- One scheduler step at time `t`: any due timer fires first, then the
event's handler runs. -/
def step (s : St) (t : Nat) (e : Ev) : St :=
  let s := fireTimer s t
  match e with
  | .search v => productSearchInput s t v
  | .searchResp items => searchResponse s items
  | .select p => selectProduct s p
  | .store v => storeNameInput s v
  | .exp v => expInput s v
  | .count v => countInput s v
  | .print o => printClick s o

/-- Run a timed event trace. -/
def run (s : St) : List (Nat × Ev) → St
  | [] => s
  | (t, e) :: rest => run (step s t e) rest

/-- A sample product used to instantiate theorems at concrete states. -/
def sampleProduct : Product :=
  { name := "Rice", quantity := 1, measure := "kg", barcode := "8901234567890"
    mrp := 60, retail_price := 55 }

/-- A state with `sampleProduct` selected, as after choosing a suggestion. -/
def sampleSelectedSt : St := { initSt with selectedProduct := some sampleProduct }

/-- The string `sub` occurs as a substring of `s`: some prefix and suffix surround it. -/
def strContains (s sub : String) : Prop := ∃ pre post : String, s = pre ++ sub ++ post

/-- Rapid-typing condition on a timed trace of search-box values:
starting from an event at time `t`, each following event happens no
earlier than, and strictly within 180 time units of, its predecessor —
i.e. inside the debounce quiet window. -/
def chainFrom : Nat → List (Nat × String) → Bool
  | _, [] => true
  | t, (t', _) :: rest => (decide (t ≤ t') && decide (t' < t + 180)) && chainFrom t' rest

/- Projection lemmas for the search-input handler, shared by the proofs
below. -/

theorem productSearchInput_searchRequests (s : St) (t : Nat) (v : String) :
    (productSearchInput s t v).searchRequests = s.searchRequests := by
  simp only [productSearchInput]
  split <;> rfl

theorem productSearchInput_searchTimer (s : St) (t : Nat) (v : String) :
    (productSearchInput s t v).searchTimer =
      (if jsTrim v = "" then none else some (t + 180, jsTrim v)) := by
  simp only [productSearchInput]
  split <;> simp_all

theorem fireTimer_not_due (s : St) (t : Nat)
    (h : ∀ ft q, s.searchTimer = some (ft, q) → t < ft) : fireTimer s t = s := by
  cases hs : s.searchTimer with
  | none => simp [fireTimer, hs]
  | some p =>
      obtain ⟨ft, q⟩ := p
      have h2 := h ft q hs
      simp [fireTimer, hs, Nat.not_le.mpr h2]

/-- C1.  The spec asserts that the submitted `count` is always a
positive integer, with `""`, `"0"`, `"-3"` and `"abc"` all normalizing
to 1.  The code disagrees on `"abc"`: `countInput.value || "1"` only
substitutes the default for the empty string, so
`Math.max(1, parseInt("abc", 10))` is `Math.max(1, NaN) = NaN` and the
payload carries `NaN` (serialized as `null`), not 1.  This theorem
evaluates the code model at all five spec examples and exhibits the
full click handler submitting a `NaN` count. -/
theorem c1_count_clamp_examples :
    computeCount "" = some 1 ∧
    computeCount "0" = some 1 ∧
    computeCount "-3" = some 1 ∧
    computeCount "5" = some 5 ∧
    computeCount "abc" = none ∧
    ((printClick { sampleSelectedSt with countValue := "abc" }
        (.response true { ok := true, printed := 1, errors := none })).printRequests.map
      PrintPayload.count) = [none] := by
  refine ⟨by decide, by decide, by decide, by decide, by decide, by decide⟩

/-- C3.  Whenever the print click handler runs with a selection present,
the `finally` arm restores the control: afterwards the button is enabled
and its label is `"Print"`, for every fetch outcome (success, failure
response, parse error or network error). -/
theorem c3_print_cleanup (s : St) (o : FetchOutcome)
    (h : s.selectedProduct.isSome = true) :
    (printClick s o).printDisabled = false ∧ (printClick s o).printLabel = "Print" := by
  obtain ⟨p, hp⟩ := Option.isSome_iff_exists.mp h
  cases o <;> simp [printClick, hp]

theorem c3_print_cleanup_witness :
    (printClick sampleSelectedSt (.netErr "connection refused")).printDisabled = false ∧
    (printClick sampleSelectedSt (.netErr "connection refused")).printLabel = "Print" :=
  c3_print_cleanup sampleSelectedSt (.netErr "connection refused") (by decide)

/-- C5.  The print action only takes effect when a selection exists:
every search-box input event clears the selection and disables the
print control, selecting a product records the selection and enables
the control, and the print click handler leaves the state completely
unchanged when no selection exists. -/
theorem c5_selection_guards_print :
    (∀ (s : St) (t : Nat) (v : String),
      (productSearchInput s t v).selectedProduct = none ∧
      (productSearchInput s t v).printDisabled = true) ∧
    (∀ (s : St) (p : Product),
      (selectProduct s p).selectedProduct = some p ∧
      (selectProduct s p).printDisabled = false) ∧
    (∀ (s : St) (o : FetchOutcome), s.selectedProduct = none → printClick s o = s) := by
  refine ⟨?_, ?_, ?_⟩
  · intro s t v
    simp only [productSearchInput]
    split <;> exact ⟨rfl, rfl⟩
  · intro s p
    simp [selectProduct, updatePreview]
  · intro s o h
    simp [printClick, h]

theorem c5_selection_guards_print_witness :
    printClick initSt (.netErr "offline") = initSt :=
  c5_selection_guards_print.2.2 initSt (.netErr "offline") rfl

/-- C6.  An input event whose value trims to the empty string hides the
suggestion list, leaves no timer scheduled, and issues no search
request. -/
theorem c6_empty_query_no_request (s : St) (t : Nat) (v : String)
    (h : jsTrim v = "") :
    (productSearchInput s t v).suggestionsVisible = false ∧
    (productSearchInput s t v).searchTimer = none ∧
    (productSearchInput s t v).searchRequests = s.searchRequests := by
  simp [productSearchInput, h]

theorem c6_empty_query_no_request_witness :
    (productSearchInput initSt 7 "   ").suggestionsVisible = false ∧
    (productSearchInput initSt 7 "   ").searchTimer = none ∧
    (productSearchInput initSt 7 "   ").searchRequests = initSt.searchRequests :=
  c6_empty_query_no_request initSt 7 "   " (by decide)

/-- C7.  Selecting a product's suggestion row copies its name into the
search box, hides the suggestion list, enables the print control, and
issues exactly one new preview request whose barcode parameter is that
product's barcode (store and expiry being the current trimmed fields). -/
theorem c7_select_product_effects (s : St) (p : Product) :
    (selectProduct s p).searchValue = p.name ∧
    (selectProduct s p).suggestionsVisible = false ∧
    (selectProduct s p).printDisabled = false ∧
    (selectProduct s p).previewRequests =
      s.previewRequests ++
        [{ barcode := p.barcode, store := jsTrim s.storeValue, exp := jsTrim s.expValue }] := by
  simp [selectProduct, updatePreview]

/-- C8.  Editing the store-name or expiry field with a selection present
issues exactly one new preview request carrying the selected barcode and
the current trimmed field values (and points the image at it); with no
selection the handler leaves everything except the edited field's own
value untouched and issues no request. -/
theorem c8_field_edit_preview (s : St) (v : String) :
    (∀ p, s.selectedProduct = some p →
      (storeNameInput s v).previewRequests =
        s.previewRequests ++
          [{ barcode := p.barcode, store := jsTrim v, exp := jsTrim s.expValue }] ∧
      (expInput s v).previewRequests =
        s.previewRequests ++
          [{ barcode := p.barcode, store := jsTrim s.storeValue, exp := jsTrim v }]) ∧
    (s.selectedProduct = none →
      storeNameInput s v = { s with storeValue := v } ∧
      expInput s v = { s with expValue := v }) := by
  constructor
  · intro p hp
    constructor <;> simp [storeNameInput, expInput, updatePreview, hp]
  · intro h
    constructor <;> simp [storeNameInput, expInput, updatePreview, h]

theorem c8_field_edit_preview_witness :
    (storeNameInput sampleSelectedSt " My Store ").previewRequests =
      sampleSelectedSt.previewRequests ++
        [{ barcode := sampleProduct.barcode, store := jsTrim " My Store ",
           exp := jsTrim sampleSelectedSt.expValue }] ∧
    (expInput sampleSelectedSt " My Store ").previewRequests =
      sampleSelectedSt.previewRequests ++
        [{ barcode := sampleProduct.barcode, store := jsTrim sampleSelectedSt.storeValue,
           exp := jsTrim " My Store " }] :=
  (c8_field_edit_preview sampleSelectedSt " My Store ").1 sampleProduct rfl

/-- C9.  Every search-box input event — empty or not — clears the
metadata text region and removes the preview image source, so nothing
stale remains visible while no selection exists. -/
theorem c9_input_clears_meta_and_preview (s : St) (t : Nat) (v : String) :
    (productSearchInput s t v).metaText = "" ∧
    (productSearchInput s t v).previewSrc = none := by
  simp only [productSearchInput]
  split <;> exact ⟨rfl, rfl⟩

/-- C10.  When the response body fails to parse as JSON (for any
status), `res.json()` throws, the user sees the "Print failed" alert
carrying the exception's message — not the partial/failure alert — and
the `finally` cleanup still re-enables the control and restores its
label. -/
theorem c10_parse_error_alert (s : St) (p : Product) (msg : String)
    (h : s.selectedProduct = some p) :
    (printClick s (.parseErr msg)).alerts = s.alerts ++ ["Print failed: " ++ msg] ∧
    (printClick s (.parseErr msg)).printDisabled = false ∧
    (printClick s (.parseErr msg)).printLabel = "Print" := by
  simp [printClick, h]

/-- The shape of the search-request log and pending timer after a rapid
burst of search-box edits: starting with no due timer, a trace of input
events each within the quiet window of its predecessor issues no search
request at all, and leaves exactly the last event's timer pending (for
its trimmed query, 180 units after it) unless that query trimmed empty. -/
theorem run_search_trace (rest : List (Nat × String)) :
    ∀ (s : St) (t : Nat) (v : String),
      (∀ ft q, s.searchTimer = some (ft, q) → t < ft) →
      chainFrom t rest = true →
      (run s (((t, v) :: rest).map (fun p => (p.1, Ev.search p.2)))).searchRequests
          = s.searchRequests ∧
      (run s (((t, v) :: rest).map (fun p => (p.1, Ev.search p.2)))).searchTimer
          = (if jsTrim (rest.getLastD (t, v)).2 = "" then none
             else some ((rest.getLastD (t, v)).1 + 180, jsTrim (rest.getLastD (t, v)).2)) := by
  induction rest with
  | nil =>
      intro s t v hT _
      have hf : fireTimer s t = s := fireTimer_not_due s t hT
      simp only [List.map_nil, List.map_cons, run, step, hf, List.getLastD_nil]
      exact ⟨productSearchInput_searchRequests s t v, productSearchInput_searchTimer s t v⟩
  | cons hd tl ih =>
      obtain ⟨t', v'⟩ := hd
      intro s t v hT hc
      simp only [chainFrom, Bool.and_eq_true, decide_eq_true_eq] at hc
      obtain ⟨⟨h1, h2⟩, h3⟩ := hc
      have hf : fireTimer s t = s := fireTimer_not_due s t hT
      have hT1 : ∀ ft q, (productSearchInput s t v).searchTimer = some (ft, q) → t' < ft := by
        intro ft q hq
        rw [productSearchInput_searchTimer] at hq
        by_cases hv : jsTrim v = ""
        · rw [if_pos hv] at hq; exact Option.noConfusion hq
        · rw [if_neg hv] at hq
          simp only [Option.some.injEq, Prod.mk.injEq] at hq
          omega
      have key := ih (productSearchInput s t v) t' v' hT1 h3
      rw [productSearchInput_searchRequests] at key
      simp only [List.map_cons, run, step, hf, List.getLastD_cons]
      exact key

/-- C2.  For every finite burst of search-box input events in which each
successive event arrives strictly within the 180-unit quiet period of
its predecessor and whose final value trims non-empty: no search request
is issued during the burst (every earlier timer is canceled before it
fires), and once the quiet period after the last event elapses exactly
one search request is issued, carrying the final trimmed query. -/
theorem c2_debounce_single_request (t : Nat) (v : String)
    (rest : List (Nat × String)) (T : Nat)
    (hchain : chainFrom t rest = true)
    (hq : jsTrim (rest.getLastD (t, v)).2 ≠ "")
    (hT : (rest.getLastD (t, v)).1 + 180 ≤ T) :
    (run initSt (((t, v) :: rest).map (fun p => (p.1, Ev.search p.2)))).searchRequests = [] ∧
    (fireTimer (run initSt (((t, v) :: rest).map (fun p => (p.1, Ev.search p.2)))) T).searchRequests
        = [jsTrim (rest.getLastD (t, v)).2] := by
  have key := run_search_trace rest initSt t v (by intro ft q h; simp [initSt] at h) hchain
  rw [if_neg hq] at key
  refine ⟨key.1, ?_⟩
  simp only [fireTimer, key.2, key.1, if_pos hT]
  rfl

theorem c2_debounce_single_request_witness :
    (run initSt
        [(0, Ev.search "a"), (100, Ev.search "ab"), (200, Ev.search " abc ")]).searchRequests
      = [] ∧
    (fireTimer
        (run initSt [(0, Ev.search "a"), (100, Ev.search "ab"), (200, Ev.search " abc ")])
        380).searchRequests
      = ["abc"] :=
  c2_debounce_single_request 0 "a" [(100, "ab"), (200, " abc ")] 380
    (by decide) (by decide) (by decide)

/-- C4.  For a completed, JSON-parsed print response: with a 2xx status
and `ok: true` the alert is the success message and contains the printed
count; in every other completed case it is the partial/failure message
and contains both the printed count and the error messages joined with
"; " (an absent error list is tolerated, rendering as `undefined`).  The
spec's two examples are instantiated: printed 5 yields an alert
containing "5"; `{ok:false, printed:2, errors:["jam"]}` yields one
containing "2" and "jam". -/
theorem c4_print_alert_content :
    (∀ data : PrintResult, data.ok = true →
      printAlert true data = "Printed " ++ toString data.printed ++ " label(s)." ∧
      strContains (printAlert true data) (toString data.printed)) ∧
    (∀ (resOk : Bool) (data : PrintResult), (resOk && data.ok) = false →
      printAlert resOk data =
        "Partial/failed print. Printed: " ++ toString data.printed ++
          ". Errors: " ++ joinedErrors data.errors ∧
      strContains (printAlert resOk data) (toString data.printed) ∧
      strContains (printAlert resOk data) (joinedErrors data.errors)) ∧
    strContains (printAlert true { ok := true, printed := 5, errors := none }) "5" ∧
    strContains (printAlert true { ok := false, printed := 2, errors := some ["jam"] }) "2" ∧
    strContains (printAlert true { ok := false, printed := 2, errors := some ["jam"] }) "jam" := by
  refine ⟨?_, ?_, ?_, ?_, ?_⟩
  · intro data h
    have he : printAlert true data = "Printed " ++ toString data.printed ++ " label(s)." := by
      simp [printAlert, h]
    exact ⟨he, "Printed ", " label(s).", he⟩
  · intro resOk data h
    have he : printAlert resOk data =
        "Partial/failed print. Printed: " ++ toString data.printed ++
          ". Errors: " ++ joinedErrors data.errors := by
      simp [printAlert, h]
    refine ⟨he,
      ⟨"Partial/failed print. Printed: ", ". Errors: " ++ joinedErrors data.errors, ?_⟩,
      ⟨"Partial/failed print. Printed: " ++ toString data.printed ++ ". Errors: ", "", ?_⟩⟩
    · simp [he, String.append_assoc]
    · simp [he, String.append_assoc, String.append_empty]
  · exact ⟨"Printed ", " label(s).", by decide⟩
  · exact ⟨"Partial/failed print. Printed: ", ". Errors: jam", by decide⟩
  · exact ⟨"Partial/failed print. Printed: 2. Errors: ", "", by decide⟩

theorem c4_print_alert_content_witness :
    printAlert true { ok := true, printed := 5, errors := none } =
      "Printed " ++ toString (5 : Int) ++ " label(s)." :=
  (c4_print_alert_content.1 { ok := true, printed := 5, errors := none } rfl).1

theorem c10_parse_error_alert_witness :
    (printClick sampleSelectedSt (.parseErr "Unexpected token <")).alerts =
      sampleSelectedSt.alerts ++ ["Print failed: Unexpected token <"] ∧
    (printClick sampleSelectedSt (.parseErr "Unexpected token <")).printDisabled = false ∧
    (printClick sampleSelectedSt (.parseErr "Unexpected token <")).printLabel = "Print" :=
  c10_parse_error_alert sampleSelectedSt sampleProduct "Unexpected token <" rfl

end LabelPrinting
